import Mathlib

/-!
Shallow embedding of the LangGraph human-in-the-loop order-exception
workflow (src/models.py, src/tools/config.py, src/tools/analysis_service.py,
src/tools/payment_service.py, src/tools/mock_database.py, src/graph.py).

Modelling conventions:
* Python `float` amounts are modelled as `ℚ` (exact rationals).
* Wall-clock timestamps (the `[HH:MM:SS]` log prefixes, `reviewed_at`,
  `order_date`, `processed_at` fields) are elided: log entries are modelled
  as their message text, which is all the claims are about.
* Random transaction identifiers (`_generate_transaction_id`) are elided
  from the payment-service results; only the claim-relevant fields
  (`success`, `message`, `error`) of the returned dicts are kept.
* Python `x or y` on an `Optional[float]` treats both `None` and `0.0` as
  falsy; this is modelled faithfully by `pyOrFloat`.  Likewise
  `pyOrStr` models `x or y` on `Optional[str]` (both `None` and the
  empty string are falsy).
* Python `f"{amount:.2f}"` two-decimal formatting is elided: `fmtAmount`
  renders the rational directly.  Message texts are otherwise kept.
-/

namespace HITLSpec

/-- Python float amounts, modelled exactly as rationals. -/
abbrev Amount := ℚ

/-- models.py `CustomerTier`. -/
inductive CustomerTier
  | STANDARD
  | PREFERRED
  | VIP
deriving DecidableEq, Repr

/-- models.py `ExceptionType` (a closed enum with exactly three values:
"refund", "cancel", "adjust"). -/
inductive ExceptionType
  | REFUND
  | CANCELLATION
  | PRICE_ADJUSTMENT
deriving DecidableEq, Repr

/-- models.py `RequestStatus`. -/
inductive RequestStatus
  | RECEIVED
  | ANALYZING
  | PENDING_APPROVAL
  | APPROVED
  | REJECTED
  | COMPLETED
  | FAILED
deriving DecidableEq, Repr

/-- The `.value` string of a `RequestStatus` (Python str Enum). -/
def RequestStatus.value : RequestStatus → String
  | .RECEIVED => "received"
  | .ANALYZING => "analyzing"
  | .PENDING_APPROVAL => "pending_approval"
  | .APPROVED => "approved"
  | .REJECTED => "rejected"
  | .COMPLETED => "completed"
  | .FAILED => "failed"

/-- The `.value` string of an `ExceptionType` (Python str Enum). -/
def ExceptionType.value : ExceptionType → String
  | .REFUND => "refund"
  | .CANCELLATION => "cancel"
  | .PRICE_ADJUSTMENT => "adjust"

/-- models.py `Customer`. -/
structure Customer where
  customer_id : String
  name : String
  email : String
  tier : CustomerTier
  lifetime_value : Amount
deriving DecidableEq, Repr

/-- models.py `OrderItem` (quantity ≥ 1 and unit_price ≥ 0 are pydantic
validations; the claims do not depend on them). -/
structure OrderItem where
  sku : String
  name : String
  quantity : Nat
  unit_price : Amount
deriving DecidableEq, Repr

/-- models.py `Order` (`order_date` elided, see header). -/
structure Order where
  order_id : String
  customer : Customer
  items : List OrderItem
  order_total : Amount
deriving DecidableEq, Repr

/-- models.py `Order.item_count`: total number of items considering
quantities. -/
def Order.item_count (o : Order) : Nat :=
  (o.items.map (fun it => it.quantity)).sum

/-- models.py `ExceptionRequest`. -/
structure ExceptionRequest where
  request_id : String
  order : Order
  exception_type : ExceptionType
  reason : String
  requested_amount : Option Amount
deriving DecidableEq, Repr

/-- Python `x or default` on an `Optional[float]`: `None` and `0.0` are
both falsy and select the default. -/
def pyOrFloat (x : Option Amount) (d : Amount) : Amount :=
  match x with
  | none => d
  | some a => if a = 0 then d else a

/-- Python `x or default` on an `Optional[str]`: `None` and `""` are both
falsy and select the default. -/
def pyOrStr (x : Option String) (d : String) : String :=
  match x with
  | none => d
  | some s => if s = "" then d else s

/-- models.py `ExceptionRequest.effective_amount`:
`self.requested_amount or self.order.order_total`. -/
def ExceptionRequest.effective_amount (r : ExceptionRequest) : Amount :=
  pyOrFloat r.requested_amount r.order.order_total

/-- models.py `AgentDecision`. -/
structure AgentDecision where
  should_approve : Bool
  recommended_amount : Amount
  reasoning : String
  requires_human_approval : Bool
  approval_reasons : List String
deriving DecidableEq, Repr, Inhabited

/-- models.py `HumanReview` (`reviewed_at` timestamp elided). -/
structure HumanReview where
  reviewer_id : String
  approved : Bool
  adjusted_amount : Option Amount
  notes : Option String
deriving DecidableEq, Repr

/-- models.py `AgentState`. -/
structure AgentState where
  request : ExceptionRequest
  status : RequestStatus := RequestStatus.RECEIVED
  decision : Option AgentDecision := none
  human_review : Option HumanReview := none
  final_amount : Option Amount := none
  result_message : Option String := none
  processing_log : List String := []
deriving DecidableEq, Repr

/-- models.py `AgentState.add_log` (timestamp prefix elided, see header). -/
def addLog (s : AgentState) (message : String) : AgentState :=
  { s with processing_log := s.processing_log ++ [message] }

/-- tools/config.py `HITLConfigType`. -/
structure HITLConfig where
  max_auto_approve_amount : Amount
  vip_always_approve : Bool
  multi_item_threshold : Nat
deriving DecidableEq, Repr

/-- tools/config.py `HITL_CONFIG`: the shipped thresholds. -/
def HITL_CONFIG : HITLConfig :=
  { max_auto_approve_amount := 100
    vip_always_approve := true
    multi_item_threshold := 2 }

/-- Render an amount (Python two-decimal formatting elided, see header). -/
def fmtAmount (q : Amount) : String := toString q

/-- Python rendering of a bool inside an f-string: "True"/"False". -/
def pyBoolStr (b : Bool) : String := if b then "True" else "False"

/-- Character-list version of Python `needle in hay` helper: does the
second list start with the first? -/
def isPrefixOfB : List Char → List Char → Bool
  | [], _ => true
  | _ :: _, [] => false
  | a :: as, b :: bs => a == b && isPrefixOfB as bs

/-- Character-list substring containment. -/
def containsCh (needle : List Char) : List Char → Bool
  | [] => isPrefixOfB needle []
  | c :: cs => isPrefixOfB needle (c :: cs) || containsCh needle cs

/-- Python `needle in hay` on strings. -/
def strContains (hay needle : String) : Bool :=
  containsCh needle.data hay.data

/-- Python `str.lower()` (ASCII case folding, which is all the keyword scan
needs), written over the character list so it evaluates in the kernel. -/
def pyLower (s : String) : String :=
  String.mk (s.data.map Char.toLower)

/-- tools/analysis_service.py `_check_amount_threshold`. -/
def check_amount_threshold (cfg : HITLConfig) (amount : Amount) :
    Bool × Option String :=
  let threshold := cfg.max_auto_approve_amount
  if amount > threshold then
    (true, some ("Amount $" ++ fmtAmount amount ++
      " exceeds auto-approve limit of $" ++ fmtAmount threshold))
  else
    (false, none)

/-- tools/analysis_service.py `_check_vip_status`. -/
def check_vip_status (cfg : HITLConfig) (tier : CustomerTier)
    (customer_name : String) : Bool × Option String :=
  if tier = CustomerTier.VIP ∧ cfg.vip_always_approve then
    (true, some ("Customer " ++ customer_name ++
      " is VIP tier - requires personalized handling"))
  else
    (false, none)

/-- tools/analysis_service.py `_check_item_complexity`. -/
def check_item_complexity (cfg : HITLConfig) (item_count : Nat) :
    Bool × Option String :=
  let threshold := cfg.multi_item_threshold
  if item_count > threshold then
    (true, some ("Order has " ++ toString item_count ++
      " items - complex exception needs review"))
  else
    (false, none)

/-- tools/analysis_service.py: the keyword list of
`_analyze_request_reason`. -/
def negative_signals : List String :=
  ["fraud", "unauthorized", "dispute", "chargeback", "stolen"]

/-- tools/analysis_service.py `_analyze_request_reason`: scans the
lowercased reason for the first concerning keyword. -/
def analyze_request_reason (reason : String) : Bool × Option String :=
  let reason_lower := pyLower reason
  match negative_signals.find? (fun signal => strContains reason_lower signal) with
  | some signal =>
      (true, some ("Request contains concerning keyword: \x27" ++ signal ++ "\x27"))
  | none => (false, none)

/-- tools/analysis_service.py `_calculate_recommended_amount`. -/
def calculate_recommended_amount (request : ExceptionRequest) :
    Amount × Option String :=
  let amount := request.effective_amount
  let order_total := request.order.order_total
  if request.exception_type = ExceptionType.PRICE_ADJUSTMENT then
    let max_adjustment := order_total * 0.20
    if amount > max_adjustment then
      (max_adjustment, some ("Price adjustment capped at 20% of order total ($" ++
        fmtAmount max_adjustment ++ ")"))
    else
      (amount, none)
  else
    (amount, none)

/-- tools/analysis_service.py `analyze_exception_request`: orchestrates the
four checks.  The Python `if flag and msg:` guards are modelled by
matching on the (flag, msg) pair — every helper returns either
`(true, some _)` or `(false, none)`. -/
def analyze_exception_request (cfg : HITLConfig) (request : ExceptionRequest) :
    AgentDecision :=
  let order := request.order
  let customer := order.customer
  let amount := request.effective_amount
  let amtCheck := check_amount_threshold cfg amount
  let ar1 : List String :=
    match amtCheck with
    | (true, some rsn) => [rsn]
    | _ => []
  let rp1 : List String :=
    match amtCheck with
    | (true, some _) => ["High-value request ($" ++ fmtAmount amount ++ ")"]
    | _ => []
  let vipCheck := check_vip_status cfg customer.tier customer.name
  let ar2 : List String :=
    match vipCheck with
    | (true, some rsn) => [rsn]
    | _ => []
  let rp2 : List String :=
    match vipCheck with
    | (true, some _) => ["VIP customer requires white-glove service"]
    | _ => []
  let cplxCheck := check_item_complexity cfg order.item_count
  let ar3 : List String :=
    match cplxCheck with
    | (true, some rsn) => [rsn]
    | _ => []
  let rp3 : List String :=
    match cplxCheck with
    | (true, some _) =>
        ["Multi-item order (" ++ toString order.item_count ++ " items)"]
    | _ => []
  let concernCheck := analyze_request_reason request.reason
  let should_approve := !concernCheck.1
  let rp4 : List String :=
    match concernCheck with
    | (true, some descr) => [descr]
    | _ => []
  let recCheck := calculate_recommended_amount request
  let recommended_amount := recCheck.1
  let rp5 : List String :=
    match recCheck.2 with
    | some note => [note]
    | none => []
  let reasoning_parts := rp1 ++ rp2 ++ rp3 ++ rp4 ++ rp5
  let reasoning_parts :=
    if reasoning_parts = [] then ["Standard request within normal parameters"]
    else reasoning_parts
  let reasoning := String.intercalate ". " reasoning_parts ++ "."
  let approval_reasons := ar1 ++ ar2 ++ ar3
  { should_approve := should_approve
    recommended_amount := recommended_amount
    reasoning := reasoning
    requires_human_approval := decide (approval_reasons.length > 0)
    approval_reasons := approval_reasons }

/-- Result dict of the payment-service operations; only the claim-relevant
keys of the returned Python dict are kept: `result.get("success")`,
`result.get("message")`, `result.get("error")` (transaction identifiers and
echo fields elided, see header). -/
structure ActionResult where
  success : Bool
  message : Option String
  error : Option String
deriving DecidableEq, Repr

/-- tools/mock_database.py order store, modelled as an association list
from order_id to Order (the concrete `_ORDERS` sample data is immaterial
to the claims; the claims quantify over the store contents). -/
abbrev OrderDB := List (String × Order)

/-- tools/mock_database.py `get_order_by_id`. -/
def get_order_by_id (db : OrderDB) (order_id : String) : Option Order :=
  (db.find? (fun p => p.1 == order_id)).map (fun p => p.2)

/-- tools/payment_service.py `process_refund`. -/
def process_refund (db : OrderDB) (order_id : String) (amount : Amount)
    (_reason : String) (_approved_by : Option String) : ActionResult :=
  match get_order_by_id db order_id with
  | none =>
      { success := false
        message := none
        error := some ("Order " ++ order_id ++ " not found") }
  | some _ =>
      { success := true
        message := some ("Refund of $" ++ fmtAmount amount ++
          " processed successfully")
        error := none }

/-- tools/payment_service.py `cancel_order`. -/
def cancel_order (db : OrderDB) (order_id : String) (_reason : String)
    (_approved_by : Option String) : ActionResult :=
  match get_order_by_id db order_id with
  | none =>
      { success := false
        message := none
        error := some ("Order " ++ order_id ++ " not found") }
  | some order =>
      { success := true
        message := some ("Order " ++ order_id ++ " cancelled. Refund of $" ++
          fmtAmount order.order_total ++ " initiated.")
        error := none }

/-- tools/payment_service.py `apply_price_adjustment`. -/
def apply_price_adjustment (db : OrderDB) (order_id : String)
    (adjustment_amount : Amount) (_reason : String)
    (_approved_by : Option String) : ActionResult :=
  match get_order_by_id db order_id with
  | none =>
      { success := false
        message := none
        error := some ("Order " ++ order_id ++ " not found") }
  | some order =>
      if adjustment_amount > order.order_total then
        { success := false
          message := none
          error := some ("Adjustment $" ++ fmtAmount adjustment_amount ++
            " exceeds order total $" ++ fmtAmount order.order_total) }
      else
        { success := true
          message := some ("Price adjustment of $" ++
            fmtAmount adjustment_amount ++ " applied to order " ++ order_id)
          error := none }

/-- graph.py `analyze_node`.  The source mutates the log, then returns a
partial update `{status, decision, processing_log}`; the model applies the
same log appends and field replacements to the state.  The Python
`for reason in decision.approval_reasons: state.add_log(...)` loop is the
`foldl` over the mapped reason list. -/
def analyze_node (cfg : HITLConfig) (state : AgentState) : AgentState :=
  let s := addLog state ("Analyzing request " ++ state.request.request_id)
  let decision := analyze_exception_request cfg state.request
  let s := addLog s ("Analysis complete: recommend_approve=" ++
    pyBoolStr decision.should_approve)
  let s := addLog s ("Requires human approval: " ++
    pyBoolStr decision.requires_human_approval)
  let s :=
    if decision.requires_human_approval then
      (decision.approval_reasons.map (fun reason => "  → " ++ reason)).foldl addLog s
    else s
  { s with
    status :=
      if decision.requires_human_approval then RequestStatus.PENDING_APPROVAL
      else RequestStatus.APPROVED
    decision := some decision }

/-- graph.py `human_review_node`: the body of the interrupt marker — pure
logging.  The source reads `state.decision.recommended_amount`
unconditionally (an `AttributeError` if `decision` were `None`); at every
reachable call site `decision` is set, modelled with `Option.getD`. -/
def human_review_node (state : AgentState) : AgentState :=
  let d := state.decision.getD default
  let s := addLog state "Awaiting human review..."
  let s := addLog s ("Recommended amount: $" ++ fmtAmount d.recommended_amount)
  let s := addLog s ("Agent recommendation: " ++
    if d.should_approve then "APPROVE" else "REJECT")
  s

/-- The `result_message` text produced by `process_review_node` when the
human review is missing. -/
def missingReviewMessage : String := "Human review was required but not provided"

/-- graph.py `process_review_node`: consumes the human review.  Missing
review → status FAILED with `missingReviewMessage` (no exception is
raised).  Approved → status APPROVED, `final_amount :=
review.adjusted_amount or decision.recommended_amount` (Python `or`: a
`None` or `0.0` override falls back to the recommendation).  Not approved
→ status REJECTED with a rejection message. -/
def process_review_node (state : AgentState) : AgentState :=
  match state.human_review with
  | none =>
      let s := addLog state "ERROR: No human review found"
      { s with
        status := RequestStatus.FAILED
        result_message := some missingReviewMessage }
  | some review =>
      let s := addLog state ("Human review received from " ++ review.reviewer_id)
      let s := addLog s ("Decision: " ++
        if review.approved then "APPROVED" else "REJECTED")
      if review.approved then
        let final_amount :=
          pyOrFloat review.adjusted_amount (state.decision.getD default).recommended_amount
        let s := addLog s ("Final approved amount: $" ++ fmtAmount final_amount)
        let s :=
          if pyOrStr review.notes "" = "" then s
          else addLog s ("Reviewer notes: " ++ pyOrStr review.notes "")
        { s with
          status := RequestStatus.APPROVED
          final_amount := some final_amount }
      else
        let s := addLog s ("Rejection reason: " ++ pyOrStr review.notes "No reason provided")
        { s with
          status := RequestStatus.REJECTED
          result_message := some ("Request rejected by " ++ review.reviewer_id ++
            ": " ++ pyOrStr review.notes "No reason provided") }

/-- graph.py `execute_node`, line 222: `state.final_amount or
state.decision.recommended_amount`. -/
def execFinalAmount (state : AgentState) : Amount :=
  pyOrFloat state.final_amount (state.decision.getD default).recommended_amount

/-- graph.py `execute_node`, lines 230-253: the dispatch on
`request.exception_type` to the Action Executor.  The `else` branch of the
source (`Unknown exception type`) is unreachable: `ExceptionType` is a
closed three-value enum and the match is exhaustive. -/
def executeDispatch (db : OrderDB) (state : AgentState) : ActionResult :=
  let request := state.request
  let final_amount := execFinalAmount state
  let approved_by := state.human_review.map (fun r => r.reviewer_id)
  match request.exception_type with
  | ExceptionType.REFUND =>
      process_refund db request.order.order_id final_amount request.reason approved_by
  | ExceptionType.CANCELLATION =>
      cancel_order db request.order.order_id request.reason approved_by
  | ExceptionType.PRICE_ADJUSTMENT =>
      apply_price_adjustment db request.order.order_id final_amount request.reason approved_by

/-- graph.py `execute_node`: invoke the Action Executor and absorb its
result into state — success sets COMPLETED and stores the message,
failure sets FAILED and stores the error text; nothing is thrown. -/
def execute_node (db : OrderDB) (state : AgentState) : AgentState :=
  let request := state.request
  let final_amount := execFinalAmount state
  let s := addLog state ("Executing " ++ request.exception_type.value ++
    " for $" ++ fmtAmount final_amount)
  let result := executeDispatch db state
  if result.success then
    let s := addLog s ("Action completed successfully: " ++
      pyOrStr result.message "None")
    { s with
      status := RequestStatus.COMPLETED
      final_amount := some final_amount
      result_message := result.message }
  else
    let s := addLog s ("Action failed: " ++ pyOrStr result.error "None")
    { s with
      status := RequestStatus.FAILED
      result_message := result.error }

/-- graph.py `rejected_node`. -/
def rejected_node (state : AgentState) : AgentState :=
  let s := addLog state "Request rejected - no action taken"
  let s := addLog s ("Final status: " ++ state.status.value)
  s

/-- graph.py `route_after_analysis`:
`"human_review"` iff a decision is attached and flags human approval. -/
def route_after_analysis (state : AgentState) : String :=
  match state.decision with
  | some d => if d.requires_human_approval then "human_review" else "execute"
  | none => "execute"

/-- graph.py `route_after_review`:
`"execute"` iff a human review is attached and approved. -/
def route_after_review (state : AgentState) : String :=
  match state.human_review with
  | some r => if r.approved then "execute" else "rejected"
  | none => "rejected"

/-- Node names registered in graph.py `create_exception_graph`. -/
inductive NodeName
  | analyze
  | human_review
  | process_review
  | execute
  | rejected
deriving DecidableEq, Repr

/-- Modelled from the spec: the result of one engine invocation.  The
LangGraph step executor itself (checkpointing and `interrupt_before`
pausing) lives in the langgraph library, not under src/; it is modelled
from the Executor contract of the spec (§4.2, §4.4), with node bodies, routers
and topology taken from src/graph.py.  `paused = some n` means the call
halted before entering interrupt node `n`; `stored` is the checkpointed
state after the call; `trace` lists the node bodies that ran, in order;
`states` lists the checkpoint after each executed node. -/
structure RunOutput where
  paused : Option NodeName
  stored : AgentState
  trace : List NodeName
  states : List AgentState
deriving Repr

/-- Modelled from the spec: `graph.invoke(initial_state, config)` on a
fresh run — walk from the entry node `analyze`; since
`interrupt_before=["human_review"]`, when routing selects `human_review`
the engine persists the state and pauses BEFORE running the body of that node;
otherwise the run proceeds through `execute` to completion
(topology: graph.py `create_exception_graph`). -/
def startRun (cfg : HITLConfig) (db : OrderDB) (s0 : AgentState) : RunOutput :=
  let s1 := analyze_node cfg s0
  if route_after_analysis s1 = "human_review" then
    { paused := some NodeName.human_review
      stored := s1
      trace := [NodeName.analyze]
      states := [s1] }
  else
    let s2 := execute_node db s1
    { paused := none
      stored := s2
      trace := [NodeName.analyze, NodeName.execute]
      states := [s1, s2] }

/-- Modelled from the spec: `graph.update_state(config, {"human_review":
review})` — merges the external review record into the stored state
without advancing the run. -/
def supplyReview (s : AgentState) (review : HumanReview) : AgentState :=
  { s with human_review := some review }

/-- Modelled from the spec: `graph.invoke(None, config)` on a run paused
before `human_review` — resumes AT the interrupt node (its body runs on
resume), then `process_review`, then the conditional edge to `execute`
or `rejected` (topology: graph.py `create_exception_graph`). -/
def resumeRun (db : OrderDB) (s : AgentState) : RunOutput :=
  let s1 := human_review_node s
  let s2 := process_review_node s1
  if route_after_review s2 = "execute" then
    let s3 := execute_node db s2
    { paused := none
      stored := s3
      trace := [NodeName.human_review, NodeName.process_review, NodeName.execute]
      states := [s1, s2, s3] }
  else
    let s3 := rejected_node s2
    { paused := none
      stored := s3
      trace := [NodeName.human_review, NodeName.process_review, NodeName.rejected]
      states := [s1, s2, s3] }

/-- Concrete standard-tier customer for instantiating theorems. -/
def exCustomer : Customer :=
  { customer_id := "CUST-1"
    name := "Alice"
    email := "alice@example.com"
    tier := CustomerTier.STANDARD
    lifetime_value := 450 }

/-- Concrete one-item order, total $30 (auto-approve territory). -/
def exOrder : Order :=
  { order_id := "O1"
    customer := exCustomer
    items := [{ sku := "S1", name := "Shirt", quantity := 1, unit_price := 30 }]
    order_total := 30 }

/-- Order store holding `exOrder`. -/
def exDb : OrderDB := [("O1", exOrder)]

/-- Concrete request that auto-approves: $30 ≤ $100, standard tier, one
item, unremarkable reason. -/
def autoRequest : ExceptionRequest :=
  { request_id := "R1"
    order := exOrder
    exception_type := ExceptionType.REFUND
    reason := "item too small"
    requested_amount := none }

/-- Same request with a different requested amount (same reason). -/
def autoRequestVariant : ExceptionRequest :=
  { autoRequest with requested_amount := some 500 }

/-- Concrete one-item order, total $200 (above the $100 threshold). -/
def bigOrder : Order :=
  { order_id := "O2"
    customer := exCustomer
    items := [{ sku := "S2", name := "Coat", quantity := 1, unit_price := 200 }]
    order_total := 200 }

/-- Order store holding `bigOrder`. -/
def bigDb : OrderDB := [("O2", bigOrder)]

/-- Concrete request that needs human review ($200 > $100). -/
def hitlRequest : ExceptionRequest :=
  { request_id := "R2"
    order := bigOrder
    exception_type := ExceptionType.REFUND
    reason := "quality issue"
    requested_amount := none }

/-- Concrete decision record recommending $50 with review required. -/
def ceDecision : AgentDecision :=
  { should_approve := true
    recommended_amount := 50
    reasoning := "review"
    requires_human_approval := true
    approval_reasons := ["threshold"] }

/-- Approving review supplying an override of $0 (falsy in Python). -/
def ceReviewZero : HumanReview :=
  { reviewer_id := "MGR-1", approved := true, adjusted_amount := some 0, notes := none }

/-- Approving review supplying an override of $35. -/
def ceReview35 : HumanReview :=
  { reviewer_id := "MGR-2", approved := true, adjusted_amount := some 35, notes := none }

/-- Rejecting review. -/
def ceReviewReject : HumanReview :=
  { reviewer_id := "MGR-3"
    approved := false
    adjusted_amount := none
    notes := some "escalated" }

/-- Paused state whose review overrides the $50 recommendation with $0. -/
def ceStateZero : AgentState :=
  { request := hitlRequest
    status := RequestStatus.PENDING_APPROVAL
    decision := some ceDecision
    human_review := some ceReviewZero }

/-- Paused state whose review overrides the $50 recommendation with $35. -/
def ceState35 : AgentState :=
  { request := hitlRequest
    status := RequestStatus.PENDING_APPROVAL
    decision := some ceDecision
    human_review := some ceReview35 }

/-- Paused state carrying a rejecting review. -/
def ceStateReject : AgentState :=
  { request := hitlRequest
    status := RequestStatus.PENDING_APPROVAL
    decision := some ceDecision
    human_review := some ceReviewReject }

/-- Paused state that was never supplied a review. -/
def noReviewState : AgentState :=
  { request := hitlRequest
    status := RequestStatus.PENDING_APPROVAL
    decision := some ceDecision
    human_review := none }

/-- Approved state about to execute against a store missing its order. -/
def execState : AgentState :=
  { request := autoRequest
    status := RequestStatus.APPROVED
    decision := some ceDecision }

/-- Refund request explicitly asking for $0 (falsy in Python). -/
def zeroReqRequest : ExceptionRequest :=
  { request_id := "R0"
    order := exOrder
    exception_type := ExceptionType.REFUND
    reason := "resize"
    requested_amount := some 0 }

/-- The effective amount as the C10 claim words it: the requested amount
when one is provided, else the full order total (second definition for
comparison with `effective_amount` from the source). -/
def specEffectiveC10 (r : ExceptionRequest) : Amount :=
  match r.requested_amount with
  | some a => a
  | none => r.order.order_total

/-- A state is downstream of an approval: status APPROVED or COMPLETED, or
FAILED while carrying an approved human review (the execute node failed
after a human approval). -/
def downstreamOfApproval (t : AgentState) : Prop :=
  t.status = RequestStatus.APPROVED ∨ t.status = RequestStatus.COMPLETED
    ∨ (t.status = RequestStatus.FAILED ∧
        ∃ r, t.human_review = some r ∧ r.approved = true)

/-! Helper lemmas about the embedding. -/

@[simp]
theorem addLog_request (s : AgentState) (m : String) :
    (addLog s m).request = s.request := rfl

@[simp]
theorem addLog_status (s : AgentState) (m : String) :
    (addLog s m).status = s.status := rfl

@[simp]
theorem addLog_decision (s : AgentState) (m : String) :
    (addLog s m).decision = s.decision := rfl

@[simp]
theorem addLog_human_review (s : AgentState) (m : String) :
    (addLog s m).human_review = s.human_review := rfl

@[simp]
theorem addLog_final_amount (s : AgentState) (m : String) :
    (addLog s m).final_amount = s.final_amount := rfl

@[simp]
theorem addLog_result_message (s : AgentState) (m : String) :
    (addLog s m).result_message = s.result_message := rfl

@[simp]
theorem addLog_processing_log (s : AgentState) (m : String) :
    (addLog s m).processing_log = s.processing_log ++ [m] := rfl

/-- Folding `addLog` over a message list appends the messages. -/
theorem foldl_addLog (msgs : List String) (s : AgentState) :
    msgs.foldl addLog s = { s with processing_log := s.processing_log ++ msgs } := by
  induction msgs generalizing s with
  | nil => simp
  | cons m ms ih =>
      simp only [List.foldl_cons, ih, addLog]
      simp

/-- `find?` succeeds exactly when `any` holds. -/
theorem find?_isSome_eq_any {α : Type} (p : α → Bool) (l : List α) :
    (l.find? p).isSome = l.any p := by
  induction l with
  | nil => rfl
  | cons a t ih =>
      cases h : p a
      · simp [List.find?_cons, h, ih]
      · simp [List.find?_cons, h]

/-- `all` of negations is the negation of `any`. -/
theorem all_not_eq_not_any {α : Type} (p : α → Bool) (l : List α) :
    l.all (fun x => !p x) = !(l.any p) := by
  induction l with
  | nil => rfl
  | cons a t ih => cases h : p a <;> simp [h, ih]

/-- The concern flag of `analyze_request_reason` is keyword containment
over the lowercased reason. -/
theorem analyze_request_reason_fst (reason : String) :
    (analyze_request_reason reason).1 =
      negative_signals.any (fun signal => strContains (pyLower reason) signal) := by
  unfold analyze_request_reason
  rw [← find?_isSome_eq_any]
  cases hf : negative_signals.find? (fun signal => strContains (pyLower reason) signal) <;>
    simp [hf]

@[simp]
theorem human_review_node_request (s : AgentState) :
    (human_review_node s).request = s.request := rfl

@[simp]
theorem human_review_node_status (s : AgentState) :
    (human_review_node s).status = s.status := rfl

@[simp]
theorem human_review_node_decision (s : AgentState) :
    (human_review_node s).decision = s.decision := rfl

@[simp]
theorem human_review_node_human_review (s : AgentState) :
    (human_review_node s).human_review = s.human_review := rfl

@[simp]
theorem human_review_node_final_amount (s : AgentState) :
    (human_review_node s).final_amount = s.final_amount := rfl

@[simp]
theorem human_review_node_result_message (s : AgentState) :
    (human_review_node s).result_message = s.result_message := rfl

/-- The review-processing node never changes the attached review. -/
theorem process_review_node_human_review (s : AgentState) :
    (process_review_node s).human_review = s.human_review := by
  rcases h : s.human_review with _ | r
  · simp [process_review_node, h]
  · cases ha : r.approved
    · simp [process_review_node, h, ha]
    · simp only [process_review_node, h]
      rw [if_pos ha]
      split <;> simp [h]

/-- The review-processing node never changes the decision record. -/
theorem process_review_node_decision (s : AgentState) :
    (process_review_node s).decision = s.decision := by
  rcases h : s.human_review with _ | r
  · simp [process_review_node, h]
  · cases ha : r.approved
    · simp [process_review_node, h, ha]
    · simp only [process_review_node, h]
      rw [if_pos ha]
      split <;> simp

/-- The review-processing node never changes the request. -/
theorem process_review_node_request (s : AgentState) :
    (process_review_node s).request = s.request := by
  rcases h : s.human_review with _ | r
  · simp [process_review_node, h]
  · cases ha : r.approved
    · simp [process_review_node, h, ha]
    · simp only [process_review_node, h]
      rw [if_pos ha]
      split <;> simp

/-- The execute node never changes the attached review. -/
theorem execute_node_human_review (db : OrderDB) (s : AgentState) :
    (execute_node db s).human_review = s.human_review := by
  simp only [execute_node]
  split <;> simp

/-- Normal form of the body of the review node. -/
theorem human_review_node_eq (s : AgentState) :
    human_review_node s =
      { s with processing_log := s.processing_log ++
          ["Awaiting human review..."] ++
          ["Recommended amount: $" ++
            fmtAmount (s.decision.getD default).recommended_amount] ++
          ["Agent recommendation: " ++
            if (s.decision.getD default).should_approve then "APPROVE"
            else "REJECT"] } := rfl

/-- Normal form of the review-processing node when no review was
supplied. -/
theorem process_review_node_none (s : AgentState) (h : s.human_review = none) :
    process_review_node s =
      { s with
        status := RequestStatus.FAILED
        result_message := some missingReviewMessage
        processing_log := s.processing_log ++ ["ERROR: No human review found"] } := by
  simp only [process_review_node, h]
  simp [addLog, h]

/-- Normal form of the review-processing node on a rejecting review. -/
theorem process_review_node_rejected (s : AgentState) (r : HumanReview)
    (hrev : s.human_review = some r) (ha : r.approved = false) :
    process_review_node s =
      { s with
        status := RequestStatus.REJECTED
        result_message := some ("Request rejected by " ++ r.reviewer_id ++ ": " ++
          pyOrStr r.notes "No reason provided")
        processing_log := s.processing_log ++
          ["Human review received from " ++ r.reviewer_id] ++
          ["Decision: " ++ if r.approved then "APPROVED" else "REJECTED"] ++
          ["Rejection reason: " ++ pyOrStr r.notes "No reason provided"] } := by
  simp only [process_review_node, hrev]
  rw [if_neg ?hcond]
  case hcond => simp [ha]
  simp [addLog, hrev]

/-- Normal form of the body of the rejected node. -/
theorem rejected_node_eq (s : AgentState) :
    rejected_node s =
      { s with processing_log := s.processing_log ++
          ["Request rejected - no action taken"] ++
          ["Final status: " ++ s.status.value] } := rfl

@[simp]
theorem rejected_node_request (s : AgentState) :
    (rejected_node s).request = s.request := rfl

@[simp]
theorem rejected_node_status (s : AgentState) :
    (rejected_node s).status = s.status := rfl

@[simp]
theorem rejected_node_decision (s : AgentState) :
    (rejected_node s).decision = s.decision := rfl

@[simp]
theorem rejected_node_human_review (s : AgentState) :
    (rejected_node s).human_review = s.human_review := rfl

@[simp]
theorem rejected_node_final_amount (s : AgentState) :
    (rejected_node s).final_amount = s.final_amount := rfl

@[simp]
theorem rejected_node_result_message (s : AgentState) :
    (rejected_node s).result_message = s.result_message := rfl

/-- The analysis node attaches the freshly computed decision. -/
theorem analyze_node_decision (cfg : HITLConfig) (s : AgentState) :
    (analyze_node cfg s).decision =
      some (analyze_exception_request cfg s.request) := by
  simp [analyze_node]

/-- Resulting status of the analysis node. -/
theorem analyze_node_status (cfg : HITLConfig) (s : AgentState) :
    (analyze_node cfg s).status =
      (if (analyze_exception_request cfg s.request).requires_human_approval then
        RequestStatus.PENDING_APPROVAL else RequestStatus.APPROVED) := by
  simp [analyze_node]

/-- The analysis node never touches the final amount. -/
theorem analyze_node_final_amount (cfg : HITLConfig) (s : AgentState) :
    (analyze_node cfg s).final_amount = s.final_amount := by
  simp only [analyze_node]
  split <;> simp [foldl_addLog]

/-- The analysis node never touches the review. -/
theorem analyze_node_human_review (cfg : HITLConfig) (s : AgentState) :
    (analyze_node cfg s).human_review = s.human_review := by
  simp only [analyze_node]
  split <;> simp [foldl_addLog]

/-- The analysis node only appends to the log. -/
theorem analyze_node_log_grows (cfg : HITLConfig) (s : AgentState) :
    s.processing_log <+: (analyze_node cfg s).processing_log := by
  simp only [analyze_node]
  split <;> simp [foldl_addLog, List.append_assoc]

/-- The body of the review node only appends to the log. -/
theorem human_review_node_log_grows (s : AgentState) :
    s.processing_log <+: (human_review_node s).processing_log := by
  simp [human_review_node_eq, List.append_assoc]

/-- Review processing on an approved review sets status APPROVED. -/
theorem process_review_node_approved_status (s : AgentState) (r : HumanReview)
    (hrev : s.human_review = some r) (ha : r.approved = true) :
    (process_review_node s).status = RequestStatus.APPROVED := by
  simp only [process_review_node, hrev]
  rw [if_pos ha]

/-- Review processing on an approved review stores `adjusted_amount or
recommended` as the final amount. -/
theorem process_review_node_approved_final (s : AgentState) (r : HumanReview)
    (hrev : s.human_review = some r) (ha : r.approved = true) :
    (process_review_node s).final_amount =
      some (pyOrFloat r.adjusted_amount
        (s.decision.getD default).recommended_amount) := by
  simp only [process_review_node, hrev]
  rw [if_pos ha]

/-- Review processing only appends to the log. -/
theorem process_review_node_log_grows (s : AgentState) :
    s.processing_log <+: (process_review_node s).processing_log := by
  rcases h : s.human_review with _ | r
  · rw [process_review_node_none s h]
    simp
  · cases ha : r.approved
    · rw [process_review_node_rejected s r h ha]
      simp [List.append_assoc]
    · simp only [process_review_node, h]
      rw [if_pos ha]
      split <;> simp [List.append_assoc]

/-- The execute node only appends to the log. -/
theorem execute_node_log_grows (db : OrderDB) (s : AgentState) :
    s.processing_log <+: (execute_node db s).processing_log := by
  simp only [execute_node]
  split <;> simp [List.append_assoc]

/-- The rejected node only appends to the log. -/
theorem rejected_node_log_grows (s : AgentState) :
    s.processing_log <+: (rejected_node s).processing_log := by
  simp [rejected_node_eq, List.append_assoc]

/-- C9: the `should_approve` recommendation of the analysis is true exactly when
the lowercased request reason contains none of the keywords "fraud",
"unauthorized", "dispute", "chargeback", "stolen" (the `negative_signals`
list); and two requests with the same reason receive the same
`should_approve` value regardless of every other input (amount, customer
tier, item count, thresholds). -/
theorem C9_should_approve_keywords (cfg : HITLConfig) (r : ExceptionRequest)
    (cfg' : HITLConfig) (r' : ExceptionRequest) (hreason : r'.reason = r.reason) :
    (analyze_exception_request cfg r).should_approve =
        negative_signals.all (fun signal => !(strContains (pyLower r.reason) signal))
      ∧ (analyze_exception_request cfg' r').should_approve =
          (analyze_exception_request cfg r).should_approve := by
  have key : ∀ (c : HITLConfig) (rr : ExceptionRequest),
      (analyze_exception_request c rr).should_approve
        = !(negative_signals.any (fun signal => strContains (pyLower rr.reason) signal)) := by
    intro c rr
    show (!(analyze_request_reason rr.reason).1) = _
    rw [analyze_request_reason_fst]
  constructor
  · rw [key, all_not_eq_not_any]
  · rw [key, key, hreason]

/-- Witness for C9 at a concrete pair of requests differing only outside
the reason field. -/
theorem C9_witness :
    (analyze_exception_request HITL_CONFIG autoRequest).should_approve = true
    ∧ (analyze_exception_request HITL_CONFIG autoRequestVariant).should_approve =
        (analyze_exception_request HITL_CONFIG autoRequest).should_approve := by
  have h := C9_should_approve_keywords HITL_CONFIG autoRequest HITL_CONFIG
    autoRequestVariant rfl
  refine ⟨?_, h.2⟩
  rw [h.1]
  decide

/-- C10 (amended): the recommended amount equals the effective amount as
computed by the code — the requested amount when a NONZERO one is provided, else the
full order total (Python `or` treats a requested 0.0 as absent) — capped
for PRICE_ADJUSTMENT at 20% of the order total via `min`. -/
theorem C10_recommended_amount_amended (cfg : HITLConfig) (r : ExceptionRequest) :
    (analyze_exception_request cfg r).recommended_amount =
      if r.exception_type = ExceptionType.PRICE_ADJUSTMENT then
        min r.effective_amount (0.20 * r.order.order_total)
      else r.effective_amount := by
  have key : (analyze_exception_request cfg r).recommended_amount
      = (calculate_recommended_amount r).1 := rfl
  rw [key]
  simp only [calculate_recommended_amount]
  split_ifs with ht hgt
  · have h : min r.effective_amount (0.20 * r.order.order_total) =
        0.20 * r.order.order_total := by
      refine min_eq_right ?_
      rw [mul_comm]
      exact le_of_lt hgt
    rw [h, mul_comm]
  · have h : min r.effective_amount (0.20 * r.order.order_total) =
        r.effective_amount := by
      refine min_eq_left ?_
      rw [mul_comm]
      exact not_lt.mp hgt
    rw [h]
  · rfl

/-- Counterexample to C10 as stated: a refund request explicitly supplying
a requested amount of $0 on a $30 order is recommended the full $30, not
the supplied $0 — "the requested amount when one is provided" fails for a
provided 0. -/
theorem C10_counterexample :
    zeroReqRequest.requested_amount = some 0
    ∧ (analyze_exception_request HITL_CONFIG zeroReqRequest).recommended_amount = 30
    ∧ specEffectiveC10 zeroReqRequest = 0
    ∧ (analyze_exception_request HITL_CONFIG zeroReqRequest).recommended_amount ≠
        specEffectiveC10 zeroReqRequest := by
  decide

/-- C5: the analysis node attaches the Decision Record, appends log
entries, sets status to PENDING_APPROVAL exactly when the review flag of the decision is true (APPROVED otherwise), and the router immediately after
analysis selects "human_review" exactly when that flag is true ("execute"
otherwise). -/
theorem C5_analyze_sets_status_and_routes (cfg : HITLConfig) (s : AgentState) :
    (analyze_node cfg s).decision = some (analyze_exception_request cfg s.request)
    ∧ (analyze_node cfg s).status =
        (if (analyze_exception_request cfg s.request).requires_human_approval then
          RequestStatus.PENDING_APPROVAL else RequestStatus.APPROVED)
    ∧ s.processing_log.length < (analyze_node cfg s).processing_log.length
    ∧ s.processing_log <+: (analyze_node cfg s).processing_log
    ∧ route_after_analysis (analyze_node cfg s) =
        (if (analyze_exception_request cfg s.request).requires_human_approval then
          "human_review" else "execute") := by
  cases hd : (analyze_exception_request cfg s.request).requires_human_approval
  · refine ⟨?_, ?_, ?_, ?_, ?_⟩ <;>
      simp [analyze_node, hd, foldl_addLog, route_after_analysis, List.append_assoc]
  · refine ⟨?_, ?_, ?_, ?_, ?_⟩ <;>
      simp [analyze_node, hd, foldl_addLog, route_after_analysis, List.append_assoc]

/-- C1 (amended): processing an approved review sets status APPROVED and
sets the final outcome to the override of the reviewer whenever a NONZERO
override is supplied (and it then survives the execute node into the
stored state of the resumed run), and to the recommended amount of the decision when
no override — or a zero override, falsy under Python `or` — is
supplied. -/
theorem C1_final_outcome_override (db : OrderDB) (s : AgentState)
    (review : HumanReview) (d : AgentDecision) (v : Amount)
    (hrev : s.human_review = some review) (happ : review.approved = true)
    (hdec : s.decision = some d) :
    (process_review_node s).status = RequestStatus.APPROVED
    ∧ (review.adjusted_amount = some v → v ≠ 0 →
        (process_review_node s).final_amount = some v
        ∧ (resumeRun db s).stored.final_amount = some v)
    ∧ (review.adjusted_amount = none →
        (process_review_node s).final_amount = some d.recommended_amount)
    ∧ (review.adjusted_amount = some 0 →
        (process_review_node s).final_amount = some d.recommended_amount) := by
  have hstat : (process_review_node s).status = RequestStatus.APPROVED := by
    simp [process_review_node, hrev, happ]
  have hfin : (process_review_node s).final_amount =
      some (pyOrFloat review.adjusted_amount d.recommended_amount) := by
    simp [process_review_node, hrev, happ, hdec]
  refine ⟨hstat, ?_, ?_, ?_⟩
  · intro ha hv
    have hfinv : (process_review_node s).final_amount = some v := by
      rw [hfin, ha]
      simp [pyOrFloat, hv]
    refine ⟨hfinv, ?_⟩
    have h1rev : (human_review_node s).human_review = some review := by
      simp [human_review_node, hrev]
    have h2rev : (process_review_node (human_review_node s)).human_review =
        some review := by
      rw [process_review_node_human_review, h1rev]
    have h2fin : (process_review_node (human_review_node s)).final_amount =
        some v := by
      simp [process_review_node, h1rev, happ, human_review_node, hdec, hrev,
        pyOrFloat, ha, hv]
    have hroute : route_after_review (process_review_node (human_review_node s)) =
        "execute" := by
      simp [route_after_review, h2rev, happ]
    have hexecfin : execFinalAmount (process_review_node (human_review_node s)) = v := by
      simp [execFinalAmount, h2fin, pyOrFloat, hv]
    have hexec : ∀ db' : OrderDB,
        (execute_node db' (process_review_node (human_review_node s))).final_amount =
          some v := by
      intro db'
      cases hres : (executeDispatch db' (process_review_node (human_review_node s))).success
      · simp [execute_node, hres, h2fin]
      · simp [execute_node, hres, hexecfin]
    simp [resumeRun, hroute, hexec db]
  · intro ha
    rw [hfin, ha]
    rfl
  · intro ha
    rw [hfin, ha]
    simp [pyOrFloat]

/-- Counterexample to C1 as stated: an approving review that supplies the
override value 0 on a decision recommending $50 yields a final outcome of
$50, not the supplied 0 (Python `review.adjusted_amount or
recommended` treats 0.0 as absent). -/
theorem C1_counterexample :
    ceReviewZero.approved = true
    ∧ ceReviewZero.adjusted_amount = some 0
    ∧ (process_review_node ceStateZero).final_amount = some 50
    ∧ (process_review_node ceStateZero).final_amount ≠ some 0 := by
  decide

/-- Witness for C1 at the concrete Scenario-D numbers: override $35 against
a $50 recommendation gives final outcome $35. -/
theorem C1_witness :
    (process_review_node ceState35).status = RequestStatus.APPROVED
    ∧ (process_review_node ceState35).final_amount = some 35
    ∧ (resumeRun bigDb ceState35).stored.final_amount = some 35 := by
  have h := C1_final_outcome_override bigDb ceState35 ceReview35 ceDecision 35
    rfl rfl rfl
  exact ⟨h.1, (h.2.1 rfl (by decide)).1, (h.2.1 rfl (by decide)).2⟩

/-- C2 (amended): resuming a paused run without an external review does not
raise any error — no `MissingReviewError` exists in the code; instead
`process_review_node` absorbs the violation: the run completes with status
FAILED, `result_message` "Human review was required but not provided", and
the stored state IS mutated (log entries appended), then proceeds through
the `rejected` node. -/
theorem C2_missing_review_fails_run (db : OrderDB) (s : AgentState)
    (h : s.human_review = none) :
    (resumeRun db s).stored.status = RequestStatus.FAILED
    ∧ (resumeRun db s).stored.result_message = some missingReviewMessage
    ∧ s.processing_log.length < (resumeRun db s).stored.processing_log.length
    ∧ (resumeRun db s).trace =
        [NodeName.human_review, NodeName.process_review, NodeName.rejected] := by
  have h2 := process_review_node_none (human_review_node s) h
  have hroute : route_after_review (process_review_node (human_review_node s)) =
      "rejected" := by
    rw [h2]
    simp [route_after_review, h]
  have hcond : ¬ (route_after_review (process_review_node (human_review_node s)) =
      "execute") := by
    rw [hroute]
    decide
  have hstored : (resumeRun db s).stored =
      rejected_node (process_review_node (human_review_node s)) := by
    simp only [resumeRun]
    rw [if_neg hcond]
  have htrace : (resumeRun db s).trace =
      [NodeName.human_review, NodeName.process_review, NodeName.rejected] := by
    simp only [resumeRun]
    rw [if_neg hcond]
  refine ⟨?_, ?_, ?_, htrace⟩
  · rw [hstored, rejected_node_status, h2]
  · rw [hstored, rejected_node_result_message, h2]
  · rw [hstored, rejected_node_eq, h2]
    simp [human_review_node_eq]

/-- Counterexample to C2 as stated: on a concrete paused run resumed
without a review, the engine does not fail with `MissingReviewError` — the
run terminates (paused = none) with absorbed status FAILED — and the
stored state is NOT left unchanged. -/
theorem C2_counterexample :
    noReviewState.human_review = none
    ∧ (resumeRun exDb noReviewState).paused = none
    ∧ (resumeRun exDb noReviewState).stored.status = RequestStatus.FAILED
    ∧ (resumeRun exDb noReviewState).stored ≠ noReviewState := by
  decide

/-- Witness for C2 (amended) at a concrete paused state. -/
theorem C2_witness :
    (resumeRun exDb noReviewState).stored.status = RequestStatus.FAILED
    ∧ (resumeRun exDb noReviewState).stored.result_message = some missingReviewMessage
    ∧ noReviewState.processing_log.length <
        (resumeRun exDb noReviewState).stored.processing_log.length := by
  have h := C2_missing_review_fails_run exDb noReviewState rfl
  exact ⟨h.1, h.2.1, h.2.2.1⟩

/-- C3: a review with approved=false drives the resumed run to terminal
status REJECTED and the Action Executor (`execute` node) is never
invoked — it does not appear in the executed-node trace. -/
theorem C3_rejected_never_executes (db : OrderDB) (s : AgentState)
    (review : HumanReview) (hrev : s.human_review = some review)
    (happ : review.approved = false) :
    (resumeRun db s).stored.status = RequestStatus.REJECTED
    ∧ NodeName.execute ∉ (resumeRun db s).trace
    ∧ (resumeRun db s).paused = none := by
  have h2 := process_review_node_rejected (human_review_node s) review hrev happ
  have hroute : route_after_review (process_review_node (human_review_node s)) =
      "rejected" := by
    rw [h2]
    simp [route_after_review, hrev, happ]
  have hcond : ¬ (route_after_review (process_review_node (human_review_node s)) =
      "execute") := by
    rw [hroute]
    decide
  have hstored : (resumeRun db s).stored =
      rejected_node (process_review_node (human_review_node s)) := by
    simp only [resumeRun]
    rw [if_neg hcond]
  have htrace : (resumeRun db s).trace =
      [NodeName.human_review, NodeName.process_review, NodeName.rejected] := by
    simp only [resumeRun]
    rw [if_neg hcond]
  refine ⟨?_, ?_, ?_⟩
  · rw [hstored, rejected_node_status, h2]
  · rw [htrace]
    decide
  · simp only [resumeRun]
    rw [if_neg hcond]

/-- Witness for C3 at a concrete rejecting review. -/
theorem C3_witness :
    (resumeRun bigDb ceStateReject).stored.status = RequestStatus.REJECTED
    ∧ NodeName.execute ∉ (resumeRun bigDb ceStateReject).trace := by
  have h := C3_rejected_never_executes bigDb ceStateReject ceReviewReject rfl rfl
  exact ⟨h.1, h.2.1⟩

/-- C4: when analysis flags human approval, the engine call pauses BEFORE
entering the `human_review` interrupt node: the paused result identifies
`human_review`, the persisted checkpoint is exactly the post-analysis
state, and the body of the interrupt node is not in the executed trace. -/
theorem C4_pause_before_interrupt (cfg : HITLConfig) (db : OrderDB)
    (s0 : AgentState)
    (h : (analyze_exception_request cfg s0.request).requires_human_approval = true) :
    (startRun cfg db s0).paused = some NodeName.human_review
    ∧ (startRun cfg db s0).stored = analyze_node cfg s0
    ∧ (startRun cfg db s0).trace = [NodeName.analyze]
    ∧ NodeName.human_review ∉ (startRun cfg db s0).trace := by
  have hdec : (analyze_node cfg s0).decision =
      some (analyze_exception_request cfg s0.request) := by
    simp [analyze_node]
  have hroute : route_after_analysis (analyze_node cfg s0) = "human_review" := by
    simp [route_after_analysis, hdec, h]
  refine ⟨?_, ?_, ?_, ?_⟩ <;> simp [startRun, hroute]

/-- Witness for C4 at a concrete above-threshold request. -/
theorem C4_witness :
    (startRun HITL_CONFIG bigDb { request := hitlRequest }).paused =
      some NodeName.human_review
    ∧ NodeName.human_review ∉ (startRun HITL_CONFIG bigDb { request := hitlRequest }).trace := by
  have h := C4_pause_before_interrupt HITL_CONFIG bigDb { request := hitlRequest }
    (by decide)
  exact ⟨h.1, h.2.2.2⟩

/-- C6: the execute node absorbs the Action Executor result into state —
status COMPLETED with the returned message stored exactly when the result
succeeds, status FAILED with the returned error text stored otherwise; in
particular a missing order yields the "not found" failure and an
over-total price adjustment yields the "exceeds order total" failure.
Nothing is thrown: `execute_node` is a total function into states. -/
theorem C6_execute_results (db : OrderDB) (s : AgentState) :
    ((execute_node db s).status =
      (if (executeDispatch db s).success then RequestStatus.COMPLETED
       else RequestStatus.FAILED))
    ∧ ((execute_node db s).result_message =
      (if (executeDispatch db s).success then (executeDispatch db s).message
       else (executeDispatch db s).error))
    ∧ (get_order_by_id db s.request.order.order_id = none →
        (executeDispatch db s).success = false
        ∧ (executeDispatch db s).error =
            some ("Order " ++ s.request.order.order_id ++ " not found"))
    ∧ (s.request.exception_type = ExceptionType.PRICE_ADJUSTMENT →
        ∀ o : Order, get_order_by_id db s.request.order.order_id = some o →
          execFinalAmount s > o.order_total →
          (executeDispatch db s).success = false
          ∧ (executeDispatch db s).error =
              some ("Adjustment $" ++ fmtAmount (execFinalAmount s) ++
                " exceeds order total $" ++ fmtAmount o.order_total)) := by
  refine ⟨?_, ?_, ?_, ?_⟩
  · cases hres : (executeDispatch db s).success <;> simp [execute_node, hres]
  · cases hres : (executeDispatch db s).success <;> simp [execute_node, hres]
  · intro hnone
    cases ht : s.request.exception_type <;>
      simp [executeDispatch, ht, process_refund, cancel_order,
        apply_price_adjustment, hnone]
  · intro ht o ho hgt
    simp [executeDispatch, ht, apply_price_adjustment, ho, hgt]

/-- Witness for C6: executing against an empty order store fails with the
"not found" error absorbed into a FAILED status. -/
theorem C6_witness :
    (executeDispatch ([] : OrderDB) execState).success = false
    ∧ (executeDispatch ([] : OrderDB) execState).error =
        some ("Order " ++ execState.request.order.order_id ++ " not found")
    ∧ (execute_node ([] : OrderDB) execState).status = RequestStatus.FAILED := by
  have h := C6_execute_results ([] : OrderDB) execState
  have h3 := h.2.2.1 rfl
  refine ⟨h3.1, h3.2, ?_⟩
  rw [h.1]
  simp [h3.1]

/-- C7 (amended): `final_amount` is set only at or downstream of an
approval, never elsewhere: in a fresh run, it is set exactly in the
COMPLETED state; in a resumed run, exactly in the states APPROVED,
COMPLETED, or FAILED-after-approved-review.  (The converse
direction fails: the auto-approved state right after analysis has status
APPROVED with `final_amount` still unset — see the counterexample.) -/
theorem C7_final_amount_iff :
    (∀ (cfg : HITLConfig) (db : OrderDB) (s0 : AgentState),
      s0.final_amount = none →
      ∀ s ∈ (startRun cfg db s0).states,
        (s.final_amount.isSome ↔ s.status = RequestStatus.COMPLETED))
    ∧ (∀ (db : OrderDB) (s : AgentState),
      s.final_amount = none → s.status = RequestStatus.PENDING_APPROVAL →
      ∀ t ∈ (resumeRun db s).states,
        (t.final_amount.isSome ↔ downstreamOfApproval t)) := by
  constructor
  · intro cfg db s0 h0 s hs
    have hfin1 : (analyze_node cfg s0).final_amount = none := by
      rw [analyze_node_final_amount]
      exact h0
    cases hflag : (analyze_exception_request cfg s0.request).requires_human_approval
    · have hroute : route_after_analysis (analyze_node cfg s0) = "execute" := by
        simp [route_after_analysis, analyze_node_decision, hflag]
      have hcond : ¬ (route_after_analysis (analyze_node cfg s0) = "human_review") := by
        rw [hroute]
        decide
      have hstates : (startRun cfg db s0).states =
          [analyze_node cfg s0, execute_node db (analyze_node cfg s0)] := by
        simp only [startRun]
        rw [if_neg hcond]
      rw [hstates] at hs
      simp only [List.mem_cons, List.not_mem_nil, or_false] at hs
      rcases hs with rfl | rfl
      · simp [hfin1, analyze_node_status, hflag]
      · cases hres : (executeDispatch db (analyze_node cfg s0)).success
        · simp [execute_node, hres, hfin1]
        · simp [execute_node, hres]
    · have hroute : route_after_analysis (analyze_node cfg s0) = "human_review" := by
        simp [route_after_analysis, analyze_node_decision, hflag]
      have hstates : (startRun cfg db s0).states = [analyze_node cfg s0] := by
        simp only [startRun]
        rw [if_pos hroute]
      rw [hstates] at hs
      simp only [List.mem_cons, List.not_mem_nil, or_false] at hs
      rcases hs with rfl
      simp [hfin1, analyze_node_status, hflag]
  · intro db s hfin hstat t ht
    have h1fin : (human_review_node s).final_amount = none := hfin
    have h1stat : (human_review_node s).status = RequestStatus.PENDING_APPROVAL := hstat
    rcases hrev : s.human_review with _ | r
    · have h2 := process_review_node_none (human_review_node s) hrev
      have hroute : route_after_review (process_review_node (human_review_node s)) =
          "rejected" := by
        rw [h2]
        simp [route_after_review, hrev]
      have hcond : ¬ (route_after_review (process_review_node (human_review_node s)) =
          "execute") := by
        rw [hroute]
        decide
      have hstates : (resumeRun db s).states =
          [human_review_node s, process_review_node (human_review_node s),
            rejected_node (process_review_node (human_review_node s))] := by
        simp only [resumeRun]
        rw [if_neg hcond]
      rw [hstates] at ht
      simp only [List.mem_cons, List.not_mem_nil, or_false] at ht
      rcases ht with rfl | rfl | rfl
      · simp [downstreamOfApproval, hfin, hstat]
      · rw [h2]
        simp [downstreamOfApproval, hfin, hrev]
      · rw [rejected_node_eq, h2]
        simp [downstreamOfApproval, hfin, hrev]
    · cases happ : r.approved
      · have h2 := process_review_node_rejected (human_review_node s) r hrev happ
        have hroute : route_after_review
            (process_review_node (human_review_node s)) = "rejected" := by
          rw [h2]
          simp [route_after_review, hrev, happ]
        have hcond : ¬ (route_after_review
            (process_review_node (human_review_node s)) = "execute") := by
          rw [hroute]
          decide
        have hstates : (resumeRun db s).states =
            [human_review_node s, process_review_node (human_review_node s),
              rejected_node (process_review_node (human_review_node s))] := by
          simp only [resumeRun]
          rw [if_neg hcond]
        rw [hstates] at ht
        simp only [List.mem_cons, List.not_mem_nil, or_false] at ht
        rcases ht with rfl | rfl | rfl
        · simp [downstreamOfApproval, hfin, hstat]
        · rw [h2]
          simp [downstreamOfApproval, hfin, hrev, happ]
        · rw [rejected_node_eq, h2]
          simp [downstreamOfApproval, hfin, hrev, happ]
      · have h2rev : (process_review_node (human_review_node s)).human_review =
            some r := (process_review_node_human_review (human_review_node s)).trans hrev
        have h2stat := process_review_node_approved_status (human_review_node s) r
          hrev happ
        have h2fin := process_review_node_approved_final (human_review_node s) r
          hrev happ
        have hroute : route_after_review
            (process_review_node (human_review_node s)) = "execute" := by
          simp [route_after_review, h2rev, happ]
        have hstates : (resumeRun db s).states =
            [human_review_node s, process_review_node (human_review_node s),
              execute_node db (process_review_node (human_review_node s))] := by
          simp only [resumeRun]
          rw [if_pos hroute]
        rw [hstates] at ht
        simp only [List.mem_cons, List.not_mem_nil, or_false] at ht
        rcases ht with rfl | rfl | rfl
        · simp [downstreamOfApproval, hfin, hstat]
        · simp [downstreamOfApproval, h2fin, h2stat]
        · cases hres : (executeDispatch db
              (process_review_node (human_review_node s))).success
          · have hxfin : (execute_node db
                (process_review_node (human_review_node s))).final_amount =
                (process_review_node (human_review_node s)).final_amount := by
              simp [execute_node, hres]
            have hxstat : (execute_node db
                (process_review_node (human_review_node s))).status =
                RequestStatus.FAILED := by
              simp [execute_node, hres]
            have hxrev : (execute_node db
                (process_review_node (human_review_node s))).human_review =
                some r :=
              (execute_node_human_review db _).trans h2rev
            rw [downstreamOfApproval]
            simp only [hxfin, h2fin, hxstat, hxrev]
            simp [happ]
          · simp [downstreamOfApproval, execute_node, hres]

/-- Counterexample to C7 as stated: in a concrete auto-approved run, the
reachable state immediately after analysis has status APPROVED while
`final_amount` is still unset — the "if status has reached APPROVED then
the final outcome is set" direction of the invariant fails. -/
theorem C7_counterexample :
    (startRun HITL_CONFIG exDb { request := autoRequest }).states.head? =
      some (analyze_node HITL_CONFIG { request := autoRequest })
    ∧ (analyze_node HITL_CONFIG { request := autoRequest }).status =
        RequestStatus.APPROVED
    ∧ (analyze_node HITL_CONFIG { request := autoRequest }).final_amount = none := by
  decide

/-- Witness for C7 (amended) on a concrete completed auto-approved run. -/
theorem C7_witness :
    (startRun HITL_CONFIG exDb { request := autoRequest }).stored.final_amount.isSome ↔
      (startRun HITL_CONFIG exDb { request := autoRequest }).stored.status =
        RequestStatus.COMPLETED := by
  have h := C7_final_amount_iff.1 HITL_CONFIG exDb { request := autoRequest } rfl
  exact h _ (by decide)

/-- C8: the processing log grows monotonically — every node step and every
engine call only appends entries (the old log is a prefix of the new one,
so nothing is removed or reordered and the length never decreases), and
along the checkpoints of a call the logs form a prefix chain. -/
theorem C8_log_monotone (cfg : HITLConfig) (db : OrderDB) (s : AgentState)
    (review : HumanReview) :
    (s.processing_log <+: (analyze_node cfg s).processing_log)
    ∧ (s.processing_log <+: (human_review_node s).processing_log)
    ∧ (s.processing_log <+: (process_review_node s).processing_log)
    ∧ (s.processing_log <+: (execute_node db s).processing_log)
    ∧ (s.processing_log <+: (rejected_node s).processing_log)
    ∧ ((supplyReview s review).processing_log = s.processing_log)
    ∧ (s.processing_log <+: (startRun cfg db s).stored.processing_log)
    ∧ (s.processing_log <+: (resumeRun db s).stored.processing_log)
    ∧ List.Chain' (fun a b => a <+: b)
        (s.processing_log ::
          (startRun cfg db s).states.map (fun st => st.processing_log))
    ∧ List.Chain' (fun a b => a <+: b)
        (s.processing_log ::
          (resumeRun db s).states.map (fun st => st.processing_log)) := by
  refine ⟨analyze_node_log_grows cfg s, human_review_node_log_grows s,
    process_review_node_log_grows s, execute_node_log_grows db s,
    rejected_node_log_grows s, rfl, ?_, ?_, ?_, ?_⟩
  · simp only [startRun]
    split
    · exact analyze_node_log_grows cfg s
    · exact (analyze_node_log_grows cfg s).trans
        (execute_node_log_grows db (analyze_node cfg s))
  · simp only [resumeRun]
    split
    · exact ((human_review_node_log_grows s).trans
        (process_review_node_log_grows (human_review_node s))).trans
        (execute_node_log_grows db (process_review_node (human_review_node s)))
    · exact ((human_review_node_log_grows s).trans
        (process_review_node_log_grows (human_review_node s))).trans
        (rejected_node_log_grows (process_review_node (human_review_node s)))
  · simp only [startRun]
    split
    · simp [List.chain'_cons, analyze_node_log_grows]
    · simp [List.chain'_cons, analyze_node_log_grows, execute_node_log_grows]
  · simp only [resumeRun]
    split
    · simp [List.chain'_cons, human_review_node_log_grows,
        process_review_node_log_grows, execute_node_log_grows]
    · simp [List.chain'_cons, human_review_node_log_grows,
        process_review_node_log_grows, rejected_node_log_grows]

end HITLSpec
